import Mathlib

/-!
Shallow embedding of the opencode voice plugin (speech delivery and
session-capture pipeline).

The plugin's effectful functions are embedded as pure functions over an
explicit description of the external world's behaviour for one call
(`LockQueryOutcome`, `PrimaryOutcome`, `FallbackOutcome`, `FetchOutcome`),
returning the result value together with a trace of the externally visible
effects (network calls issued, executable invocations, SQL statements).
The process-wide `lastProcessedMessageId` variable becomes explicit state
threaded through the event handler.
-/

namespace VoicePlugin

/-- the single-quote character (code point 39), used for SQL escaping -/
def squote : Char := Char.ofNat 39

/-- string holding one single-quote character -/
def squoteStr : String := String.singleton squote

/-- Configuration record, mirroring the TTSConfig interface of the source. -/
structure TTSConfig where
  apiUrl : String
  canSpeakUrl : String
  fallbackScript : String
  announceOnIdle : Bool
  idleMessage : String
  dbPath : String
  storeAiResponses : Bool
deriving DecidableEq

/-- Default configuration values from the source. -/
def defaultConfig : TTSConfig :=
  { apiUrl := "http://localhost:5555/api/speech/speak"
  , canSpeakUrl := "http://localhost:5555/api/speech/can-speak"
  , fallbackScript := "~/voice-assistant/voice-output/tts-api.sh"
  , announceOnIdle := false
  , idleMessage := "Úkol dokončen."
  , dbPath := "/home/jirka/voice-assistant/voice-assistant.db"
  , storeAiResponses := false }

/-- Outcome of the single GET issued by canSpeak against the lock-check
endpoint: a 2xx response whose parsed JSON body may or may not carry a
boolean canSpeak field, a non-2xx status, or a thrown error (network
failure, the one-second timeout, or a body that fails to parse as JSON). -/
inductive LockQueryOutcome where
  | success (canSpeakField : Option Bool)
  | failStatus
  | thrown
deriving DecidableEq

/-- Result of one canSpeak call: the value returned to the caller (none
models the JavaScript undefined that results from reading a missing field)
and the number of query attempts issued. -/
structure CanSpeakTrace where
  result : Option Bool
  queries : Nat
deriving DecidableEq

/-- Embedding of canSpeak: on a 2xx response return the body's canSpeak
field as-is; on a non-2xx status or a thrown error return true (fail-open).
Exactly one query is issued in every case. -/
def canSpeak : LockQueryOutcome → CanSpeakTrace
  | .success f => { result := f, queries := 1 }
  | .failStatus => { result := some true, queries := 1 }
  | .thrown => { result := some true, queries := 1 }

/-- JavaScript truthiness of the value canSpeak returns: undefined (none)
and false are falsy, true is truthy. The source tests it with !allowed. -/
def jsTruthy : Option Bool → Bool
  | some b => b
  | none => false

/-- Outcome of the POST to the primary speech endpoint. -/
inductive PrimaryOutcome where
  | ok
  | failStatus
  | thrown
deriving DecidableEq

/-- Outcome of invoking the fallback executable. -/
inductive FallbackOutcome where
  | ok
  | thrown
deriving DecidableEq

/-- External-world behaviour for one speak call. -/
structure SpeakWorld where
  lock : LockQueryOutcome
  primary : PrimaryOutcome
  fallback : FallbackOutcome
deriving DecidableEq

/-- Result of one speak call: the boolean returned, the number of
lock-check queries, and the texts submitted to the primary endpoint and
passed to the fallback executable (in call order). -/
structure SpeakTrace where
  result : Bool
  lockQueries : Nat
  primaryCalls : List String
  fallbackCalls : List String
deriving DecidableEq

/-- Embedding of speak: consult the lock gate; if not allowed, return true
with no delivery attempt. Otherwise POST the text to the primary endpoint;
a 2xx response returns true. On a non-2xx status or a thrown fetch error,
invoke the fallback executable with the text; its success returns true and
its failure returns false. -/
def speak (w : SpeakWorld) (text : String) : SpeakTrace :=
  let allowed := jsTruthy (canSpeak w.lock).result
  if allowed = false then
    { result := true, lockQueries := (canSpeak w.lock).queries
    , primaryCalls := [], fallbackCalls := [] }
  else
    match w.primary with
    | .ok =>
      { result := true, lockQueries := (canSpeak w.lock).queries
      , primaryCalls := [text], fallbackCalls := [] }
    | .failStatus =>
      match w.fallback with
      | .ok =>
        { result := true, lockQueries := (canSpeak w.lock).queries
        , primaryCalls := [text], fallbackCalls := [text] }
      | .thrown =>
        { result := false, lockQueries := (canSpeak w.lock).queries
        , primaryCalls := [text], fallbackCalls := [text] }
    | .thrown =>
      match w.fallback with
      | .ok =>
        { result := true, lockQueries := (canSpeak w.lock).queries
        , primaryCalls := [text], fallbackCalls := [text] }
      | .thrown =>
        { result := false, lockQueries := (canSpeak w.lock).queries
        , primaryCalls := [text], fallbackCalls := [text] }

/-- Per-character SQL escaping: a single quote becomes two single quotes,
every other character is kept. This is the char-level reading of the
source's global regex replace of a quote by two quotes. -/
def escapeChar (c : Char) : List Char :=
  if c = squote then [squote, squote] else [c]

/-- SQL-escape a character list. -/
def sqlEscapeList (s : List Char) : List Char :=
  (s.map escapeChar).flatten

/-- SQL-escape a string, as content.replace of every quote by two quotes. -/
def sqlEscape (s : String) : String :=
  String.mk (sqlEscapeList s.data)

/-- The SQL insertion statement the source builds for a content string
(after escaping): INSERT INTO AiResponses (Content) VALUES (...); -/
def insertStatement (content : String) : String :=
  "INSERT INTO AiResponses (Content) VALUES (" ++ squoteStr
    ++ sqlEscape content ++ squoteStr ++ ");"

/-- Leading- and trailing-whitespace removal at the character level, the
executable embedding of the trim the source applies to the content. -/
def jsTrim (s : String) : String :=
  String.mk
    (((s.data.dropWhile Char.isWhitespace).reverse.dropWhile
        Char.isWhitespace).reverse)

/-- Embedding of storeAiResponse: the list of SQL statements executed
against the database. When storage is disabled or the content trims to
empty, no statement is issued; otherwise exactly the one insertion
statement is executed. Execution failure is caught by the source and is
invisible to the caller, so it does not appear in the return value. -/
def storeAiResponse (config : TTSConfig) (content : String) : List String :=
  if config.storeAiResponses = false then []
  else if jsTrim content = "" then []
  else [insertStatement content]

/-- A SQL single-quoted string literal reader, modelling how the target
persistence engine reads the literal the statement carries. The input is
the character stream immediately after the opening quote; a doubled quote
stands for one quote character in the value, a lone quote closes the
literal. Returns the decoded value and the stream after the closing quote,
or none when the literal never closes. -/
def readSqlLiteral : List Char → Option (List Char × List Char)
  | [] => none
  | c :: rest =>
    if c = squote then
      match rest with
      | [] => some ([], [])
      | c2 :: rest2 =>
        if c2 = squote then
          match readSqlLiteral rest2 with
          | some (body, remaining) => some (squote :: body, remaining)
          | none => none
        else some ([], rest)
    else
      match readSqlLiteral rest with
      | some (body, remaining) => some (c :: body, remaining)
      | none => none

/-- One message part: a type tag and an optional text payload. -/
structure Part where
  type : String
  text : Option String
deriving DecidableEq

/-- JavaScript truthiness of the filter predicate in extractTextFromParts:
the part has type "text" and a truthy text payload (present and
non-empty, since the empty string is falsy). -/
def partHasText (p : Part) : Bool :=
  p.type == "text" && (match p.text with
    | some t => !(t == "")
    | none => false)

/-- Embedding of extractTextFromParts: keep the parts whose type is "text"
and whose text is truthy, take their text payloads in order, and join
them with a newline separator. -/
def extractTextFromParts (parts : List Part) : String :=
  String.intercalate "\n"
    ((parts.filter partHasText).map fun p => p.text.getD "")

/-- Text-bearing payload of a part as the specification describes it: the
text of a part that bears text, i.e. a part of type "text" carrying a
non-empty payload. Used to restate the captured-content property in the
specification's words, to be compared with the source embedding. -/
def specPartPayload (p : Part) : Option String :=
  if p.type == "text" then
    match p.text with
    | some t => if t == "" then none else some t
    | none => none
  else none

/-- Captured content as the specification words it: the text payloads of
the text-bearing parts joined in their original order with a newline
separator. -/
def specCapturedContent (parts : List Part) : String :=
  String.intercalate "\n" (parts.filterMap specPartPayload)

/-- Message metadata: author role and identifier. -/
structure MsgInfo where
  role : String
  id : String
deriving DecidableEq

/-- A session message: metadata plus ordered parts. -/
structure Message where
  info : MsgInfo
  parts : List Part
deriving DecidableEq

/-- Outcome of the session-messages fetch: a response whose data field may
be absent (the source substitutes an empty list), or a thrown error. -/
inductive FetchOutcome where
  | ok (data : Option (List Message))
  | thrown
deriving DecidableEq

/-- The last assistant-authored message of an ordered message list, found
by scanning the reversed list, as the source does. -/
def lastAssistant (msgs : List Message) : Option Message :=
  msgs.reverse.find? fun m => m.info.role == "assistant"

/-- One host-emitted lifecycle event: its type tag and the session
identifier carried in its properties. -/
structure Event where
  type : String
  sessionID : String
deriving DecidableEq

/-- External-world behaviour for one event-handler invocation: whether the
client handle is present, the outcome of the session-messages fetch, and
whether the SQL insertion (if attempted) succeeds. -/
structure EventCtx where
  clientPresent : Bool
  fetch : FetchOutcome
  persistOk : Bool
deriving DecidableEq

/-- Effects of one event-handler invocation: texts passed to the Delivery
Chain (speak), contents handed to the Response Store (storeAiResponse),
SQL insertion statements executed, and how many of those insertions
failed. -/
structure EventTrace where
  speaks : List String
  handOffs : List String
  inserts : List String
  failedInserts : Nat
deriving DecidableEq

/-- The newest assistant message identifier the event's session data
yields, when the fetch succeeds and an assistant message exists. -/
def newestAssistantId (ctx : EventCtx) : Option String :=
  match ctx.fetch with
  | .ok data => (lastAssistant (data.getD [])).map fun m => m.info.id
  | .thrown => none

/-- The capture half of the event handler: for a session-idle event with
response storage enabled and a client present, fetch the session messages,
locate the last assistant message, and if its identifier differs from the
stored marker, update the marker and (when the extracted text is
non-empty) hand the text to the Response Store. Returns the new marker and
the contents handed over. A thrown fetch is swallowed with the marker
unchanged. -/
def captureStep (config : TTSConfig) (ctx : EventCtx) (e : Event)
    (st : Option String) : Option String × List String :=
  if e.type == "session.idle" && config.storeAiResponses then
    if ctx.clientPresent then
      match ctx.fetch with
      | .thrown => (st, [])
      | .ok data =>
        match lastAssistant (data.getD []) with
        | none => (st, [])
        | some m =>
          if some m.info.id ≠ st then
            let textContent := extractTextFromParts m.parts
            if textContent ≠ "" then (some m.info.id, [textContent])
            else (some m.info.id, [])
          else (st, [])
    else (st, [])
  else (st, [])

/-- Embedding of the event handler: announce the configured idle message
through the Delivery Chain when the event is session-idle and announcing
is enabled, then run the capture step. The SQL statements executed are
those storeAiResponse issues for each handed-over content; when the
persistence call fails, the failure is swallowed and only counted. -/
def handleEvent (config : TTSConfig) (ctx : EventCtx) (e : Event)
    (st : Option String) : Option String × EventTrace :=
  let speaks :=
    if e.type == "session.idle" && config.announceOnIdle then
      [config.idleMessage]
    else []
  let stepped := captureStep config ctx e st
  let inserts := (stepped.2.map (storeAiResponse config)).flatten
  ( stepped.1
  , { speaks := speaks
    , handOffs := stepped.2
    , inserts := inserts
    , failedInserts := if ctx.persistOk then 0 else inserts.length } )

/-- Run the event handler over a list of events, threading the
lastProcessedMessageId marker, collecting each event's trace. -/
def runEvents (config : TTSConfig) (evs : List (EventCtx × Event))
    (st : Option String) : Option String × List EventTrace :=
  match evs with
  | [] => (st, [])
  | (ctx, e) :: rest =>
    let stepped := handleEvent config ctx e st
    let tail := runEvents config rest stepped.1
    (tail.1, stepped.2 :: tail.2)

/-! ## Concrete instances used in witnesses and counterexamples -/

/-- the fixed statement text preceding the opening quote of the literal -/
def stmtHead : String := "INSERT INTO AiResponses (Content) VALUES ("

/-- a content string containing an embedded quote character -/
def obrien : String := "O" ++ squoteStr ++ "Brien"

/-- configuration with response storage enabled -/
def cfgStore : TTSConfig := { defaultConfig with storeAiResponses := true }

/-- configuration with idle announcing and storage enabled -/
def cfgAnnounce : TTSConfig :=
  { defaultConfig with announceOnIdle := true, storeAiResponses := true }

/-- a session-idle lifecycle event -/
def idleEvent : Event := { type := "session.idle", sessionID := "s1" }

/-- a lifecycle event of another type -/
def otherEvent : Event := { type := "message.updated", sessionID := "s1" }

/-- an assistant message with identifier m1 -/
def msgA : Message :=
  { info := { role := "assistant", id := "m1" }
  , parts := [{ type := "text", text := some "hello" }] }

/-- an assistant message with identifier m2 -/
def msgB : Message :=
  { info := { role := "assistant", id := "m2" }
  , parts := [{ type := "text", text := some "other" }] }

/-- event context whose session data yields msgA as the newest assistant
message; the persistence outcome is the parameter -/
def ctxA (persistOk : Bool) : EventCtx :=
  { clientPresent := true
  , fetch := FetchOutcome.ok (some [msgA])
  , persistOk := persistOk }

/-- event context whose session data yields msgB as the newest assistant
message -/
def ctxB : EventCtx :=
  { clientPresent := true
  , fetch := FetchOutcome.ok (some [msgB])
  , persistOk := true }

/-- three consecutive idle events: msgA observed with a failing
persistence call, then msgB, then msgA observed again -/
def evs3 : List (EventCtx × Event) :=
  [(ctxA false, idleEvent), (ctxB, idleEvent), (ctxA true, idleEvent)]

/-! ## Helper lemmas -/

theorem speak_not_allowed (w : SpeakWorld) (text : String)
    (h : jsTruthy (canSpeak w.lock).result = false) :
    speak w text =
      { result := true, lockQueries := 1
      , primaryCalls := [], fallbackCalls := [] } := by
  obtain ⟨l, p, fb⟩ := w
  cases l <;> simp_all [speak, canSpeak, jsTruthy]

/-! ## Claim theorems -/

/-- Claim C1: when the lock gate allows speech, speak follows the delivery-chain
order: a 2xx from the primary channel returns true with no fallback
invocation, and on any primary-channel failure (non-2xx status or thrown
network error) the fallback executable is invoked exactly once with the
original, unmodified text as its argument (the primary having been
attempted first). -/
theorem speak_delivery_chain_order (w : SpeakWorld) (text : String)
    (h : jsTruthy (canSpeak w.lock).result = true) :
    (w.primary = PrimaryOutcome.ok →
      speak w text =
        { result := true, lockQueries := 1
        , primaryCalls := [text], fallbackCalls := [] }) ∧
    (w.primary ≠ PrimaryOutcome.ok →
      (speak w text).primaryCalls = [text] ∧
      (speak w text).fallbackCalls = [text]) := by
  obtain ⟨l, p, fb⟩ := w
  cases l <;> cases p <;> cases fb <;>
    simp_all [speak, canSpeak, jsTruthy]

/-- Concrete instance of the C1 theorem: a permitted lock, a failing
primary channel, a fallback invocation carrying the same text. -/
theorem speak_delivery_chain_order_witness :
    jsTruthy (canSpeak (LockQueryOutcome.success (some true))).result
        = true ∧
    ((speak ⟨LockQueryOutcome.success (some true),
        PrimaryOutcome.failStatus, FallbackOutcome.ok⟩ "ahoj").primaryCalls
        = ["ahoj"] ∧
      (speak ⟨LockQueryOutcome.success (some true),
        PrimaryOutcome.failStatus, FallbackOutcome.ok⟩ "ahoj").fallbackCalls
        = ["ahoj"]) :=
  ⟨by decide,
    (speak_delivery_chain_order
      ⟨LockQueryOutcome.success (some true), PrimaryOutcome.failStatus,
        FallbackOutcome.ok⟩ "ahoj" (by decide)).2 (by decide)⟩

/-- Claim C2: when the lock gate reports that speech is not permitted, speak
returns true and issues zero calls to the primary channel and zero calls
to the fallback executable. -/
theorem speak_locked_silent (w : SpeakWorld) (text : String)
    (h : jsTruthy (canSpeak w.lock).result = false) :
    speak w text =
      { result := true, lockQueries := 1
      , primaryCalls := [], fallbackCalls := [] } :=
  speak_not_allowed w text h

/-- Concrete instance of the C2 theorem: the lock endpoint reports
locked, speak returns true with no delivery calls. -/
theorem speak_locked_silent_witness :
    jsTruthy (canSpeak (LockQueryOutcome.success (some false))).result
        = false ∧
    speak ⟨LockQueryOutcome.success (some false), PrimaryOutcome.ok,
        FallbackOutcome.ok⟩ "text" =
      { result := true, lockQueries := 1
      , primaryCalls := [], fallbackCalls := [] } :=
  ⟨by decide,
    speak_locked_silent
      ⟨LockQueryOutcome.success (some false), PrimaryOutcome.ok,
        FallbackOutcome.ok⟩ "text" (by decide)⟩

/-- Claim C3: canSpeak is fail-open and total: it issues exactly one query
attempt for every outcome, and whenever the query does not produce a 2xx
response with a parsed body (non-2xx status, or a thrown network error,
timeout, or malformed body) it returns true. Totality (never raising) is
the embedding itself: every outcome is mapped to a returned value. -/
theorem canSpeak_fail_open (q : LockQueryOutcome) :
    (canSpeak q).queries = 1 ∧
    ((∀ f, q ≠ LockQueryOutcome.success f) →
      (canSpeak q).result = some true) := by
  cases q with
  | success f => exact ⟨rfl, fun h => absurd rfl (h f)⟩
  | failStatus => exact ⟨rfl, fun _ => rfl⟩
  | thrown => exact ⟨rfl, fun _ => rfl⟩

/-- Concrete instance of the C3 theorem at a thrown query. -/
theorem canSpeak_fail_open_witness :
    (canSpeak LockQueryOutcome.thrown).queries = 1 ∧
    (canSpeak LockQueryOutcome.thrown).result = some true :=
  ⟨(canSpeak_fail_open LockQueryOutcome.thrown).1,
    (canSpeak_fail_open LockQueryOutcome.thrown).2 fun _ h => nomatch h⟩

/-- Claim C4: speak always returns a boolean (the embedding is total over every
world behaviour, modelling that all failures are caught), and it returns
false exactly when the lock gate allowed speech, the primary channel
failed, and the fallback executable failed — in particular both channels
failing yields false, and the boolean is the sole failure signal. -/
theorem speak_boolean_failure_signal (w : SpeakWorld) (text : String) :
    ((speak w text).result = true ∨ (speak w text).result = false) ∧
    ((speak w text).result = false ↔
      (jsTruthy (canSpeak w.lock).result = true ∧
        w.primary ≠ PrimaryOutcome.ok ∧
        w.fallback = FallbackOutcome.thrown)) := by
  refine ⟨?_, ?_⟩
  · cases h : (speak w text).result
    · exact Or.inr rfl
    · exact Or.inl rfl
  · obtain ⟨l, p, fb⟩ := w
    rcases l with f | - | -
    · rcases f with - | b
      · cases p <;> cases fb <;> simp [speak, canSpeak, jsTruthy]
      · cases b <;> cases p <;> cases fb <;>
          simp [speak, canSpeak, jsTruthy]
    · cases p <;> cases fb <;> simp [speak, canSpeak, jsTruthy]
    · cases p <;> cases fb <;> simp [speak, canSpeak, jsTruthy]

/-- Claim C10: a 2xx lock-check response whose well-formed body lacks the
canSpeak field (undefined, modelled as none) or carries a non-true value
is returned as-is by canSpeak, and speak then treats it as locked:
it returns true and issues no primary-channel call and no fallback
invocation. -/
theorem canSpeak_fieldless_treated_locked (f : Option Bool)
    (p : PrimaryOutcome) (fb : FallbackOutcome) (text : String)
    (h : f ≠ some true) :
    (canSpeak (LockQueryOutcome.success f)).result = f ∧
    speak ⟨LockQueryOutcome.success f, p, fb⟩ text =
      { result := true, lockQueries := 1
      , primaryCalls := [], fallbackCalls := [] } := by
  have hf : jsTruthy f = false := by
    rcases f with - | b
    · rfl
    · cases b
      · rfl
      · exact absurd rfl h
  exact ⟨rfl, speak_not_allowed _ text (by simpa [canSpeak] using hf)⟩

/-- Concrete instance of the C10 theorem: a success response with no
canSpeak field suppresses all delivery and returns true. -/
theorem canSpeak_fieldless_treated_locked_witness :
    (none : Option Bool) ≠ some true ∧
    ((canSpeak (LockQueryOutcome.success none)).result = none ∧
      speak ⟨LockQueryOutcome.success none, PrimaryOutcome.ok,
          FallbackOutcome.ok⟩ "x" =
        { result := true, lockQueries := 1
        , primaryCalls := [], fallbackCalls := [] }) :=
  ⟨by decide,
    canSpeak_fieldless_treated_locked none PrimaryOutcome.ok
      FallbackOutcome.ok "x" (by decide)⟩

theorem specPartPayload_eq (p : Part) :
    specPartPayload p =
      if partHasText p then some (p.text.getD "") else none := by
  obtain ⟨ty, tx⟩ := p
  cases hty : (ty == "text")
  · rcases tx with - | t <;> simp [specPartPayload, partHasText, hty]
  · rcases tx with - | t
    · simp [specPartPayload, partHasText, hty]
    · cases ht : (t == "") <;>
        simp [specPartPayload, partHasText, hty, ht]

theorem extract_list_eq_spec_list (parts : List Part) :
    (parts.filter partHasText).map (fun p => p.text.getD "")
      = parts.filterMap specPartPayload := by
  induction parts with
  | nil => rfl
  | cons p ps ih =>
    rw [List.filter_cons, List.filterMap_cons, specPartPayload_eq]
    cases hp : partHasText p <;> simp [hp, ih]

theorem sqlEscapeList_cons (c : Char) (cs : List Char) :
    sqlEscapeList (c :: cs) = escapeChar c ++ sqlEscapeList cs := by
  simp [sqlEscapeList]

theorem readSqlLiteral_escape (s rest : List Char)
    (h : rest.head? ≠ some squote) :
    readSqlLiteral (sqlEscapeList s ++ squote :: rest) = some (s, rest) := by
  induction s with
  | nil =>
    show readSqlLiteral (squote :: rest) = some ([], rest)
    cases rest with
    | nil => rfl
    | cons c2 rest2 =>
      have hc2 : ¬ c2 = squote := fun hc => h (by simp [hc])
      simp [readSqlLiteral, hc2]
  | cons c cs ih =>
    rw [sqlEscapeList_cons]
    by_cases hc : c = squote
    · subst hc
      simp only [escapeChar, if_pos rfl, List.cons_append, List.nil_append]
      simp [readSqlLiteral, ih]
    · simp only [escapeChar, if_neg hc, List.cons_append, List.nil_append]
      rw [readSqlLiteral.eq_def]
      simp [hc, ih]

/-- Claim C7: the captured content is the text payloads of the text-bearing
parts (type "text" with a non-empty payload present) joined in their
original order with a newline separator; in particular the parts
text A, other, text B yield exactly A newline B. -/
theorem extractTextFromParts_joins_in_order :
    extractTextFromParts
        [ { type := "text", text := some "A" }
        , { type := "other", text := none }
        , { type := "text", text := some "B" } ] = "A\nB" ∧
    ∀ parts, extractTextFromParts parts = specCapturedContent parts := by
  constructor
  · rfl
  · intro parts
    unfold extractTextFromParts specCapturedContent
    rw [extract_list_eq_spec_list]

/-- Claim C8: storeAiResponse is a no-op exactly when storage is disabled or the
content trims to nothing; otherwise it executes exactly the one insertion
statement, whose character stream is the fixed prefix, an opening quote,
the escaped content, the closing quote and the trailing "):" characters —
and reading the quoted literal back out of that stream recovers the
original content unchanged with the stream's tail intact, so an embedded
quote character neither corrupts the persisted record nor terminates the
literal early. Insertion failure is swallowed by the source and does not
reach the caller, which the embedding reflects by the statement list being
the whole observable behaviour. -/
theorem storeAiResponse_contract (config : TTSConfig) (content : String) :
    ((config.storeAiResponses = false ∨ jsTrim content = "") →
      storeAiResponse config content = []) ∧
    (config.storeAiResponses = true → jsTrim content ≠ "" →
      storeAiResponse config content = [insertStatement content]) ∧
    ((insertStatement content).data
      = stmtHead.data
          ++ squote :: ((sqlEscape content).data ++ squote :: [')', ';'])) ∧
    readSqlLiteral ((sqlEscape content).data ++ squote :: [')', ';'])
      = some (content.data, [')', ';']) := by
  refine ⟨?_, ?_, ?_, ?_⟩
  · rintro (hd | he)
    · simp [storeAiResponse, hd]
    · simp [storeAiResponse, he]
  · intro hs he
    simp [storeAiResponse, hs, he]
  · simp only [insertStatement, stmtHead, String.data_append, squoteStr,
      String.singleton]
    simp
  · exact readSqlLiteral_escape content.data [')', ';'] (by decide)

/-- Concrete instance of the C8 theorem: with storage disabled the
O-quote-Brien content issues no statement; with storage enabled it issues
exactly the insertion statement, and the literal inside that statement
reads back as the original content. -/
theorem storeAiResponse_contract_witness :
    storeAiResponse defaultConfig obrien = [] ∧
    storeAiResponse cfgStore obrien = [insertStatement obrien] ∧
    readSqlLiteral ((sqlEscape obrien).data ++ squote :: [')', ';'])
      = some (obrien.data, [')', ';']) :=
  ⟨(storeAiResponse_contract defaultConfig obrien).1 (Or.inl rfl),
    (storeAiResponse_contract cfgStore obrien).2.1 rfl (by decide),
    (storeAiResponse_contract cfgStore obrien).2.2.2⟩

theorem captureStep_snd_le_one (config : TTSConfig) (ctx : EventCtx)
    (e : Event) (st : Option String) :
    (captureStep config ctx e st).2.length ≤ 1 := by
  unfold captureStep
  repeat' split
  all_goals try simp
  all_goals (split <;> simp)

theorem handleEvent_fst (config : TTSConfig) (ctx : EventCtx) (e : Event)
    (st : Option String) :
    (handleEvent config ctx e st).1 = (captureStep config ctx e st).1 := rfl

theorem handleEvent_handOffs (config : TTSConfig) (ctx : EventCtx)
    (e : Event) (st : Option String) :
    (handleEvent config ctx e st).2.handOffs
      = (captureStep config ctx e st).2 := rfl

theorem newestAssistantId_ok (ctx : EventCtx) (data : Option (List Message))
    (m : String) (hf : ctx.fetch = FetchOutcome.ok data)
    (hm : newestAssistantId ctx = some m) :
    ∃ msg, lastAssistant (data.getD []) = some msg ∧ msg.info.id = m := by
  rw [newestAssistantId, hf] at hm
  exact Option.map_eq_some'.mp hm

theorem captureStep_marker (config : TTSConfig) (ctx : EventCtx) (e : Event)
    (st : Option String) (m : String)
    (h1 : e.type = "session.idle") (hs : config.storeAiResponses = true)
    (hc : ctx.clientPresent = true)
    (hm : newestAssistantId ctx = some m) :
    (captureStep config ctx e st).1 = some m := by
  cases hf : ctx.fetch with
  | thrown => rw [newestAssistantId, hf] at hm; exact absurd hm (by simp)
  | ok data =>
    obtain ⟨msg, hmsg, hid⟩ := newestAssistantId_ok ctx data m hf hm
    subst hid
    unfold captureStep
    simp only [h1, hs, hc, hf, hmsg, beq_self_eq_true, Bool.and_self,
      if_true]
    by_cases hst : some msg.info.id = st
    · simp [hst]
    · simp only [ne_eq, hst, not_false_iff, if_pos]
      split <;> rfl

theorem captureStep_dedup (config : TTSConfig) (ctx : EventCtx) (e : Event)
    (m : String) (hm : newestAssistantId ctx = some m) :
    captureStep config ctx e (some m) = (some m, []) := by
  cases hf : ctx.fetch with
  | thrown =>
    unfold captureStep
    simp [hf]
  | ok data =>
    obtain ⟨msg, hmsg, hid⟩ := newestAssistantId_ok ctx data m hf hm
    subst hid
    unfold captureStep
    simp [hf, hmsg]

theorem captureStep_no_assistant (config : TTSConfig) (ctx : EventCtx)
    (e : Event) (st : Option String)
    (hm : newestAssistantId ctx = none) :
    captureStep config ctx e st = (st, []) := by
  cases hf : ctx.fetch with
  | thrown =>
    unfold captureStep
    simp [hf]
  | ok data =>
    rw [newestAssistantId, hf, Option.map_eq_none'] at hm
    unfold captureStep
    simp [hf, hm]

theorem runEvents_same_id (config : TTSConfig) (m : String)
    (evs : List (EventCtx × Event))
    (h : ∀ p ∈ evs, newestAssistantId p.1 = some m) :
    (runEvents config evs (some m)).1 = some m ∧
    ∀ tr ∈ (runEvents config evs (some m)).2, tr.handOffs = [] := by
  induction evs with
  | nil => simp [runEvents]
  | cons pe rest ih =>
    obtain ⟨ctx, e⟩ := pe
    have hm : newestAssistantId ctx = some m := h _ (List.mem_cons_self _ _)
    have hstep := captureStep_dedup config ctx e m hm
    have hfst : (handleEvent config ctx e (some m)).1 = some m := by
      rw [handleEvent_fst, hstep]
    have hoffs : (handleEvent config ctx e (some m)).2.handOffs = [] := by
      rw [handleEvent_handOffs, hstep]
    have ihr := ih fun p hp => h p (List.mem_cons_of_mem _ hp)
    constructor
    · show (runEvents config ((ctx, e) :: rest) (some m)).1 = some m
      simp only [runEvents, hfst]
      exact ihr.1
    · intro tr htr
      simp only [runEvents, hfst, List.mem_cons] at htr
      rcases htr with htr | htr
      · rw [htr]; exact hoffs
      · exact ihr.2 tr htr

/-- Claim C5: deduplication invariant. Two consecutive session-idle events whose
session data yields the same newest assistant identifier hand the Response
Store at most one content in total; the marker holds that identifier after
the first event and is not changed again by the second (one update per
newly observed identifier); and an event whose session data yields no
assistant message leaves the marker unchanged. -/
theorem event_dedup_invariant (config : TTSConfig) (ctx1 ctx2 : EventCtx)
    (e1 e2 : Event) (st : Option String) (m : String)
    (h1 : e1.type = "session.idle") (_h2 : e2.type = "session.idle")
    (hs : config.storeAiResponses = true)
    (hc1 : ctx1.clientPresent = true) (_hc2 : ctx2.clientPresent = true)
    (hm1 : newestAssistantId ctx1 = some m)
    (hm2 : newestAssistantId ctx2 = some m) :
    ((handleEvent config ctx1 e1 st).2.handOffs.length +
        (handleEvent config ctx2 e2
          (handleEvent config ctx1 e1 st).1).2.handOffs.length ≤ 1) ∧
    ((handleEvent config ctx1 e1 st).1 = some m ∧
      (handleEvent config ctx2 e2 (handleEvent config ctx1 e1 st).1).1
        = some m ∧
      (handleEvent config ctx2 e2
          (handleEvent config ctx1 e1 st).1).2.handOffs = []) ∧
    (∀ ctx e s, newestAssistantId ctx = none →
      (handleEvent config ctx e s).1 = s) := by
  have hfst1 : (handleEvent config ctx1 e1 st).1 = some m := by
    rw [handleEvent_fst]
    exact captureStep_marker config ctx1 e1 st m h1 hs hc1 hm1
  have hstep2 := captureStep_dedup config ctx2 e2 m hm2
  have hfst2 :
      (handleEvent config ctx2 e2 (handleEvent config ctx1 e1 st).1).1
        = some m := by
    rw [hfst1, handleEvent_fst, hstep2]
  have hoffs2 :
      (handleEvent config ctx2 e2
        (handleEvent config ctx1 e1 st).1).2.handOffs = [] := by
    rw [hfst1, handleEvent_handOffs, hstep2]
  refine ⟨?_, ⟨hfst1, hfst2, hoffs2⟩, ?_⟩
  · have hb := captureStep_snd_le_one config ctx1 e1 st
    rw [← handleEvent_handOffs] at hb
    rw [hoffs2]
    simpa using hb
  · intro ctx e s hmn
    rw [handleEvent_fst, captureStep_no_assistant config ctx e s hmn]

/-- Concrete instance of the C5 theorem: two idle events both observing
message m1, starting from an empty marker. -/
theorem event_dedup_invariant_witness :
    newestAssistantId (ctxA true) = some "m1" ∧
    ((handleEvent cfgStore (ctxA true) idleEvent none).2.handOffs.length +
        (handleEvent cfgStore (ctxA true) idleEvent
          (handleEvent cfgStore (ctxA true) idleEvent
            none).1).2.handOffs.length ≤ 1) ∧
    (handleEvent cfgStore (ctxA true) idleEvent none).1 = some "m1" :=
  ⟨by decide,
    (event_dedup_invariant cfgStore (ctxA true) (ctxA true) idleEvent
      idleEvent none "m1" rfl rfl rfl rfl rfl (by decide) (by decide)).1,
    (event_dedup_invariant cfgStore (ctxA true) (ctxA true) idleEvent
      idleEvent none "m1" rfl rfl rfl rfl rfl (by decide)
      (by decide)).2.1.1⟩

/-- Claim C6 counterexample: the dedup marker only remembers the single most
recent identifier, so the code does hand a previously processed identifier
to the Response Store again on a later event. Concretely: message m1 is
handed over while its persistence call fails, a different message m2 is
observed next, and a third idle event observing m1 again hands m1's
content to the store a second time. -/
theorem marker_retry_counterexample :
    newestAssistantId (ctxA false) = some "m1" ∧
    newestAssistantId (ctxA true) = some "m1" ∧
    ((runEvents cfgStore evs3 none).2.map fun tr => tr.handOffs)
      = [["hello"], ["other"], ["hello"]] ∧
    ((runEvents cfgStore evs3 none).2.map fun tr => tr.failedInserts)
      = [1, 0, 0] := by
  refine ⟨by decide, by decide, by decide, by decide⟩

/-- Claim C6 (amended): the marker is updated when a new assistant message is
identified and before storage is attempted, and the persistence outcome
never influences the marker or the hand-off decisions; consequently after
a persistence failure the same message identifier is not handed to the
Response Store again on later events so long as every such event still
observes that identifier as the newest assistant message (an intervening
different identifier overwrites the single-slot marker and re-enables a
hand-off of the earlier one). -/
theorem marker_updated_before_storage (config : TTSConfig) (m : String)
    (evs : List (EventCtx × Event))
    (h : ∀ p ∈ evs, newestAssistantId p.1 = some m) :
    ((runEvents config evs (some m)).1 = some m ∧
      ∀ tr ∈ (runEvents config evs (some m)).2, tr.handOffs = []) ∧
    (∀ (ctx : EventCtx) (e : Event) (st : Option String) (b1 b2 : Bool),
      (handleEvent config { ctx with persistOk := b1 } e st).1
        = (handleEvent config { ctx with persistOk := b2 } e st).1 ∧
      (handleEvent config { ctx with persistOk := b1 } e st).2.handOffs
        = (handleEvent config { ctx with persistOk := b2 } e st).2.handOffs) := by
  refine ⟨runEvents_same_id config m evs h, ?_⟩
  intro ctx e st b1 b2
  exact ⟨rfl, rfl⟩

/-- Concrete instance of the amended C6 theorem: with the marker already
holding m1, a further idle event observing m1 hands nothing over and
leaves the marker unchanged. -/
theorem marker_updated_before_storage_witness :
    (∀ p ∈ [(ctxA true, idleEvent)], newestAssistantId p.1 = some "m1") ∧
    ((runEvents cfgStore [(ctxA true, idleEvent)] (some "m1")).1
        = some "m1" ∧
      ∀ tr ∈ (runEvents cfgStore [(ctxA true, idleEvent)] (some "m1")).2,
        tr.handOffs = []) :=
  ⟨by decide,
    (marker_updated_before_storage cfgStore "m1" [(ctxA true, idleEvent)]
      (by decide)).1⟩

/-- Claim C9: on a session-idle event with idle announcing enabled, the Delivery
Chain is invoked with exactly the configured idle message text; on an
event of any other type the handler does nothing at all: no speech, no
hand-off, no insertion, and the marker is unchanged. -/
theorem event_dispatch (config : TTSConfig) (ctx : EventCtx) (e : Event)
    (st : Option String) :
    (e.type = "session.idle" → config.announceOnIdle = true →
      (handleEvent config ctx e st).2.speaks = [config.idleMessage]) ∧
    (e.type ≠ "session.idle" →
      handleEvent config ctx e st =
        (st, { speaks := [], handOffs := [], inserts := []
             , failedInserts := 0 })) := by
  constructor
  · intro h1 ha
    simp [handleEvent, h1, ha]
  · intro hne
    have hb : (e.type == "session.idle") = false := by
      simpa using hne
    simp [handleEvent, captureStep, hb]

/-- Concrete instance of the C9 theorem: with announcing enabled, an idle
event speaks exactly the configured idle message, and an event of another
type is a complete no-op. -/
theorem event_dispatch_witness :
    idleEvent.type = "session.idle" ∧
    cfgAnnounce.announceOnIdle = true ∧
    (handleEvent cfgAnnounce (ctxA true) idleEvent none).2.speaks
      = ["Úkol dokončen."] ∧
    otherEvent.type ≠ "session.idle" ∧
    handleEvent cfgAnnounce (ctxA true) otherEvent none =
      (none, { speaks := [], handOffs := [], inserts := []
             , failedInserts := 0 }) :=
  ⟨rfl, rfl,
    (event_dispatch cfgAnnounce (ctxA true) idleEvent none).1 rfl rfl,
    by decide,
    (event_dispatch cfgAnnounce (ctxA true) otherEvent none).2 (by decide)⟩

end VoicePlugin
